import Mathlib

/-!
Verification of the git-ai-vscode arbitration core.

This file is a shallow embedding of the repository's `CheckpointManager`
(the arbitration core) and of `GitAiService.checkpointAwsQ` (the agent
invocation of the external checkpoint executor).

Modelling conventions:
- JavaScript timestamps (`Date.now()`) are `Nat` milliseconds threaded
  explicitly through every operation.  `now - stored` uses truncated `Nat`
  subtraction; every comparison in the source has the form
  `now - stored < positiveConstant`, on which truncated subtraction agrees
  with JavaScript number subtraction whenever `now < stored` (both sides
  yield `true`), and exactly otherwise.
- JavaScript strings are Lean `String`s; the JS operations used by the
  source (`includes`, `startsWith`, `substring(n)`, `replace(/\\/g, '/')`)
  are modelled on `String.data`.
- The `setTimeout` handle is an `Option Timer`.  A `Timer` records its
  scheduled fire time and whether its callback has already run: in the
  source, firing does not null the field, so the truthiness test
  `if (this.pendingHumanTimeout)` can see a handle whose callback already
  ran.  `clearTimeout` followed by `= null` is modelled by setting the
  field to `none`.
- The external checkpoint executor is modelled by the list of `Action`s an
  operation dispatches.  Its asynchronous completion callbacks only touch
  the display counters, never the arbitration fields, and are not part of
  the synchronous step.
- `vscode.workspace.getWorkspaceFolder` is an external collaborator and is
  a function-valued component of the configuration.
-/

namespace GitAi

/-- Model of the JS `haystack.includes(needle)` substring test, on char lists. -/
def hasInfix (pat : List Char) : List Char → Bool
  | [] => pat.isEmpty
  | c :: rest => pat.isPrefixOf (c :: rest) || hasInfix pat rest

/-- Model of JS `s.includes(pat)`. -/
def jsIncludes (s pat : String) : Bool :=
  hasInfix pat.data s.data

/-- Model of JS `s.startsWith(pre)`. -/
def jsStartsWith (s pre : String) : Bool :=
  pre.data.isPrefixOf s.data

/-- Model of JS `s.substring(n)` (drop the first `n` characters). -/
def jsSubstringFrom (s : String) (n : Nat) : String :=
  ⟨s.data.drop n⟩

/-- Model of JS `s.replace(/\\/g, '/')` (global single-char replacement). -/
def jsReplaceBackslashes (s : String) : String :=
  ⟨s.data.map fun c => if c = '\\' then '/' else c⟩

/-- Source constant `AI_SIGNAL_WINDOW_MS` of `CheckpointManager`. -/
abbrev AI_SIGNAL_WINDOW_MS : Nat := 10000

/-- Source constant `AI_GRACE_PERIOD_MS` of `CheckpointManager`. -/
abbrev AI_GRACE_PERIOD_MS : Nat := 5000

/-- The literal `500` in the throttle check of `requestAwsQCheckpoint`. -/
abbrev AI_CHECKPOINT_THROTTLE_MS : Nat := 500

/-- A `setTimeout` handle: its scheduled fire time and whether the callback
already ran.  The JS runtime fires a timeout at most once; `clearTimeout`
on an already-fired handle is a no-op. -/
structure Timer where
  fireTime : Nat
  fired : Bool
deriving DecidableEq, Repr

/-- The scheme/fsPath pair of a `vscode.Uri` as observed by `handleFileChange`. -/
structure Uri where
  scheme : String
  fsPath : String
deriving DecidableEq, Repr

/-- The mutable arbitration fields of `CheckpointManager`.  The display
counters are incremented only inside asynchronous success callbacks of the
external executor, which never feed back into arbitration; the counters are
carried here so frame properties can mention them, and the synchronous
operations leave them unchanged. -/
structure ManagerState where
  pendingHumanTimeout : Option Timer
  pendingFile : Option String
  lastAiSignalTime : Nat
  lastAiCheckpointTime : Nat
  aiCheckpointCount : Nat
  humanCheckpointCount : Nat
deriving DecidableEq, Repr

/-- Constructor-time state of `CheckpointManager` (all timestamps `0`,
no armed timer, no pending file, counters `0`). -/
def initialState : ManagerState :=
  { pendingHumanTimeout := none
    pendingFile := none
    lastAiSignalTime := 0
    lastAiCheckpointTime := 0
    aiCheckpointCount := 0
    humanCheckpointCount := 0 }

/-- External collaborators and configuration: the configurable
`gitAi.humanDebounceMillis` value (default 1500) and the
`vscode.workspace.getWorkspaceFolder` lookup. -/
structure Config where
  humanDebounceMs : Nat
  getWorkspaceFolder : String → Option String

/-- An invocation dispatched to the checkpoint executor (`GitAiService`). -/
inductive Action where
  | humanCheckpoint (file : Option String)
  | agentCheckpoint (repoDir : String) (file : String)
deriving DecidableEq, Repr

/-- Tests whether an executor invocation is an agent checkpoint. -/
def isAgentAction : Action → Bool
  | .agentCheckpoint _ _ => true
  | _ => false

/-- The anti-feedback-loop filter at the top of `handleFileChange`:
paths inside `.git`, `.git-ai`, `node_modules` or containing `.DS_Store`
are ignored (`path.sep` modelled as `/`). -/
def filteredPath (p : String) : Bool :=
  jsIncludes p "/.git/" || jsIncludes p "/.git-ai/" ||
    jsIncludes p "/node_modules/" || jsIncludes p ".DS_Store"

/-- `CheckpointManager.executeAwsQCheckpoint`: look up the workspace folder
of the file; if found, invoke the executor's agent checkpoint with that
folder as repository working directory, otherwise do nothing.  The counter
increment lives in the asynchronous success callback. -/
def executeAwsQCheckpoint (cfg : Config) (p : String) : List Action :=
  match cfg.getWorkspaceFolder p with
  | some w => [Action.agentCheckpoint w p]
  | none => []

/-- `CheckpointManager.requestAwsQCheckpoint`: throttle agent checkpoints to
one per 500ms of `lastAiCheckpointTime`; past the throttle, clear any pending
human timeout, dispatch the agent checkpoint immediately and record
`lastAiCheckpointTime = now`. -/
def requestAwsQCheckpoint (cfg : Config) (s : ManagerState) (now : Nat) (p : String) :
    ManagerState × List Action :=
  if now - s.lastAiCheckpointTime < AI_CHECKPOINT_THROTTLE_MS then (s, [])
  else
    ({ s with pendingHumanTimeout := none, lastAiCheckpointTime := now },
      executeAwsQCheckpoint cfg p)

/-- `CheckpointManager.requestHumanCheckpoint`: inside the grace period after
an agent checkpoint, do nothing; otherwise cancel any existing pending human
timeout and arm a fresh one for `humanDebounceMs`. -/
def requestHumanCheckpoint (cfg : Config) (s : ManagerState) (now : Nat) :
    ManagerState × List Action :=
  if now - s.lastAiCheckpointTime < AI_GRACE_PERIOD_MS then (s, [])
  else
    ({ s with pendingHumanTimeout := some { fireTime := now + cfg.humanDebounceMs, fired := false } },
      [])

/-- `CheckpointManager.executeHumanCheckpoint` (the debounce-timer callback):
re-check the grace period at fire time; past it, invoke the executor's human
checkpoint for the pending file.  The source callback does not null
`pendingHumanTimeout`, so the state's handle field is untouched here. -/
def executeHumanCheckpoint (s : ManagerState) (now : Nat) : ManagerState × List Action :=
  if now - s.lastAiCheckpointTime < AI_GRACE_PERIOD_MS then (s, [])
  else (s, [Action.humanCheckpoint s.pendingFile])

/-- `CheckpointManager.signalAiActivity`: record the pulse time; if the
`pendingHumanTimeout` field is non-null (the source checks truthiness of the
handle, fired or not), clear it and upgrade the pending file, if any, to an
agent checkpoint. -/
def signalAiActivity (cfg : Config) (s : ManagerState) (now : Nat) :
    ManagerState × List Action :=
  if (s.pendingHumanTimeout).isSome then
    match s.pendingFile with
    | some f =>
        requestAwsQCheckpoint cfg
          { s with lastAiSignalTime := now, pendingHumanTimeout := none } now f
    | none => ({ s with lastAiSignalTime := now, pendingHumanTimeout := none }, [])
  else ({ s with lastAiSignalTime := now }, [])

/-- `CheckpointManager.handleFileChange`: ignore non-`file` schemes and
filtered paths; record the path as `pendingFile`; attribute to the agent if
the last agent pulse is less than `AI_SIGNAL_WINDOW_MS` old, else request a
debounced human checkpoint.  (The source reads `lastAiSignalTime` after
setting `pendingFile`; the assignment does not touch that field.) -/
def handleFileChange (cfg : Config) (s : ManagerState) (now : Nat) (uri : Uri) :
    ManagerState × List Action :=
  if uri.scheme = "file" then
    if filteredPath uri.fsPath then (s, [])
    else
      if now - s.lastAiSignalTime < AI_SIGNAL_WINDOW_MS then
        requestAwsQCheckpoint cfg { s with pendingFile := some uri.fsPath } now uri.fsPath
      else
        requestHumanCheckpoint cfg { s with pendingFile := some uri.fsPath } now
  else (s, [])

/-- The debounce timer firing on the single-threaded event queue: the
callback runs only if the handle is still present, its callback has not run
yet, and real time has reached its scheduled fire time.  The JS runtime
marks the timeout as fired; the manager's field itself is not nulled by the
callback. -/
def fireTimer (s : ManagerState) (now : Nat) : ManagerState × List Action :=
  match s.pendingHumanTimeout with
  | some tm =>
      if tm.fired = false ∧ tm.fireTime = now then
        executeHumanCheckpoint
          { s with pendingHumanTimeout := some { tm with fired := true } } now
      else (s, [])
  | none => (s, [])

/-- The three kinds of events the single-threaded arbitration queue
processes: watcher file-change events, agent-activity pulses from the log
watcher, and the debounce timer's scheduled callback. -/
inductive Event where
  | fileChange (uri : Uri)
  | agentSignal
  | timerFire
deriving DecidableEq, Repr

/-- One event processed to completion (the source is single-threaded and
non-preemptive). -/
def step (cfg : Config) (s : ManagerState) (now : Nat) : Event → ManagerState × List Action
  | .fileChange uri => handleFileChange cfg s now uri
  | .agentSignal => signalAiActivity cfg s now
  | .timerFire => fireTimer s now

/-- A timed event trace processed in order, collecting every executor
invocation dispatched along the way. -/
def run (cfg : Config) (s : ManagerState) : List (Nat × Event) → ManagerState × List Action
  | [] => (s, [])
  | (t, e) :: rest =>
      let r1 := step cfg s t e
      let r2 := run cfg r1.1 rest
      (r2.1, r1.2 ++ r2.2)

/-- The `edited_filepaths` computation inside `GitAiService.checkpointAwsQ`:
if the file path starts with the repository directory, the list holds the
path with that prefix (and one following separator, if present) removed and
backslashes replaced by forward slashes; otherwise the list is empty. -/
def editedFilepaths (repoDir : String) (filePath : Option String) : List String :=
  match filePath with
  | some fp =>
      if jsStartsWith fp repoDir then
        if jsStartsWith (jsSubstringFrom fp repoDir.length) "/" then
          [jsReplaceBackslashes (jsSubstringFrom (jsSubstringFrom fp repoDir.length) 1)]
        else
          [jsReplaceBackslashes (jsSubstringFrom fp repoDir.length)]
      else []
  | none => []

/-- The `--hook-input` JSON payload built by `GitAiService.checkpointAwsQ`. -/
structure AwsQPayload where
  type : String
  repo_working_dir : String
  edited_filepaths : List String
  agent_name : String
  model : String
  conversation_id : String
  transcript_messages : List String
deriving DecidableEq, Repr

/-- The executor invocation built by `GitAiService.checkpointAwsQ`: the
argument list handed to the external binary is `subcommand` followed by the
serialised `payload`. -/
structure AwsQInvocation where
  subcommand : List String
  payload : AwsQPayload
deriving DecidableEq, Repr

/-- `GitAiService.checkpointAwsQ`: build the agent checkpoint invocation
`checkpoint agent-v1 --hook-input <json>` run in `repoDir`. -/
def checkpointAwsQ (repoDir : String) (filePath : Option String) (timestamp : Nat) :
    AwsQInvocation :=
  { subcommand := ["checkpoint", "agent-v1", "--hook-input"]
    payload :=
      { type := "ai_agent"
        repo_working_dir := repoDir
        edited_filepaths := editedFilepaths repoDir filePath
        agent_name := "aws-q"
        model := "aws-q"
        conversation_id := "vscode-" ++ toString timestamp
        transcript_messages := [] } }

/-- A concrete configuration used by witnesses and counterexamples: default
debounce, one workspace folder `/w`. -/
def cfgEx : Config :=
  { humanDebounceMs := 1500
    getWorkspaceFolder := fun p => if jsStartsWith p "/w/" then some "/w" else none }

/-- A configuration with no workspace folders at all. -/
def cfgNoWs : Config :=
  { humanDebounceMs := 1500
    getWorkspaceFolder := fun _ => none }

/-- A state with an armed (not yet fired) debounce timer and a very recent
agent checkpoint.  Both fields are directly settable through the public
methods, which place no joint constraint at method granularity. -/
def sC4 : ManagerState :=
  { pendingHumanTimeout := some { fireTime := 2400, fired := false }
    pendingFile := some "/w/a.txt"
    lastAiSignalTime := 0
    lastAiCheckpointTime := 900
    aiCheckpointCount := 0
    humanCheckpointCount := 0 }

/-- A state inside the agent grace period: the last agent checkpoint was
recorded at 16000 and no agent pulse is recent. -/
def sGrace : ManagerState :=
  { pendingHumanTimeout := none
    pendingFile := none
    lastAiSignalTime := 0
    lastAiCheckpointTime := 16000
    aiCheckpointCount := 0
    humanCheckpointCount := 0 }

/-! ### Helper lemmas -/

theorem isPrefixOf_append_self (l1 l2 : List Char) : l1.isPrefixOf (l1 ++ l2) = true := by
  induction l1 with
  | nil => simp [List.isPrefixOf]
  | cons a t ih => simp [List.isPrefixOf, ih]

theorem jsStartsWith_append (pre x : String) : jsStartsWith (pre ++ x) pre = true := by
  unfold jsStartsWith
  rw [String.data_append]
  exact isPrefixOf_append_self _ _

theorem jsSubstringFrom_append (pre x : String) :
    jsSubstringFrom (pre ++ x) pre.length = x := by
  unfold jsSubstringFrom
  rw [String.data_append]
  show String.mk ((pre.data ++ x.data).drop pre.data.length) = x
  rw [List.drop_left]

theorem string_append_assoc (a b c : String) : a ++ b ++ c = a ++ (b ++ c) := by
  apply String.ext
  simp [String.data_append, List.append_assoc]

theorem countP_agent_executeAwsQCheckpoint (cfg : Config) (p : String) :
    ((executeAwsQCheckpoint cfg p).countP isAgentAction) ≤ 1 := by
  unfold executeAwsQCheckpoint
  cases h : cfg.getWorkspaceFolder p <;>
    simp [isAgentAction, List.countP_cons, List.countP_nil]

theorem requestHumanCheckpoint_acts (cfg : Config) (s : ManagerState) (now : Nat) :
    (requestHumanCheckpoint cfg s now).2 = [] := by
  unfold requestHumanCheckpoint
  split <;> rfl

/-- The human-attribution route of `handleFileChange`: a local-scheme,
non-filtered path seen with the agent-signal window expired records the file
and requests a debounced human checkpoint. -/
theorem handleFileChange_human_route (cfg : Config) (s : ManagerState) (now : Nat) (p : String)
    (hfilter : filteredPath p = false)
    (hnwin : ¬(now - s.lastAiSignalTime < AI_SIGNAL_WINDOW_MS)) :
    handleFileChange cfg s now ⟨"file", p⟩
      = requestHumanCheckpoint cfg { s with pendingFile := some p } now := by
  simp [handleFileChange, hfilter, hnwin]

/-! ### Claims -/

/-- The trace refuting claim C1: a file change arms the debounce timer, the
timer fires (human checkpoint), and a later agent pulse finds the handle
still non-null and upgrades the very same cycle to an agent checkpoint. -/
def traceC1 : List (Nat × Event) :=
  [(1000000, Event.fileChange ⟨"file", "/w/a.txt"⟩),
   (1001500, Event.timerFire),
   (1002000, Event.agentSignal)]

/-- C1: refutation by evaluation.  The claim says a debounce cycle that
armed a pending human timer produces exactly one terminal checkpoint —
human (timer fires) xor agent (upgrade) — never both.  In the code the
timer callback does not null `pendingHumanTimeout`, so the cycle armed at
t=1000000 commits as human at t=1001500 and is then additionally upgraded
to an agent checkpoint for the same `pendingFile` by the pulse at
t=1002000: the one cycle dispatches two checkpoints. -/
theorem C1_cycle_double_checkpoint :
    (run cfgEx initialState traceC1).2
      = [Action.humanCheckpoint (some "/w/a.txt"),
         Action.agentCheckpoint "/w" "/w/a.txt"] := by
  decide

/-- The trace refuting claim C3: a file change arms the timer and the timer
fires. -/
def traceC3 : List (Nat × Event) :=
  [(1000000, Event.fileChange ⟨"file", "/w/a.txt"⟩),
   (1001500, Event.timerFire)]

/-- C3: refutation by evaluation.  The claim says the handle is nulled
immediately after the timer fires, so a later `onAgentSignal` sees no armed
timer.  In the code only the cancellation paths null the handle; the fire
path does not: after the fire the field still holds the handle, and an
agent pulse arriving afterwards takes the upgrade path and dispatches an
agent checkpoint for the stale pending file. -/
theorem C3_stale_handle_after_fire :
    (run cfgEx initialState traceC3).1.pendingHumanTimeout
        = some { fireTime := 1001500, fired := true } ∧
    (signalAiActivity cfgEx (run cfgEx initialState traceC3).1 1002000).2
      = [Action.agentCheckpoint "/w" "/w/a.txt"] := by
  decide

/-- C4: counterexample.  The claim says every `requestAwsQCheckpoint` call,
including throttle-dropped ones, cancels an armed pending human timer.  At
`sC4` (armed timer, `lastAiCheckpointTime = 900`) a call at t=1000 is
throttle-dropped (100ms < 500ms) and returns with the timer still armed. -/
theorem C4_counterexample :
    (requestAwsQCheckpoint cfgEx sC4 1000 "/w/a.txt").1.pendingHumanTimeout
      = some { fireTime := 2400, fired := false } := by
  decide

/-- C4 (amended): a `requestAwsQCheckpoint` call that passes the throttle
cancels any pending human timer, leaving none armed when it returns; a
throttle-dropped call returns immediately with the state unchanged and
dispatches nothing. -/
theorem C4_throttle_gate (cfg : Config) (s : ManagerState) (now : Nat) (p : String) :
    (AI_CHECKPOINT_THROTTLE_MS ≤ now - s.lastAiCheckpointTime →
      (requestAwsQCheckpoint cfg s now p).1.pendingHumanTimeout = none) ∧
    (now - s.lastAiCheckpointTime < AI_CHECKPOINT_THROTTLE_MS →
      requestAwsQCheckpoint cfg s now p = (s, [])) := by
  constructor
  · intro h
    have h' : (500 : Nat) ≤ now - s.lastAiCheckpointTime := h
    have hn : ¬(now - s.lastAiCheckpointTime < AI_CHECKPOINT_THROTTLE_MS) := by
      show ¬(now - s.lastAiCheckpointTime < 500)
      omega
    simp [requestAwsQCheckpoint, hn]
  · intro h
    simp [requestAwsQCheckpoint, h]

/-- C4: witness for the amended theorem, at a passing and a dropped call. -/
theorem C4_throttle_gate_witness :
    (requestAwsQCheckpoint cfgEx sC4 10000 "/w/a.txt").1.pendingHumanTimeout = none ∧
    requestAwsQCheckpoint cfgEx sC4 1000 "/w/a.txt" = (sC4, []) :=
  ⟨(C4_throttle_gate cfgEx sC4 10000 "/w/a.txt").1 (by decide),
   (C4_throttle_gate cfgEx sC4 1000 "/w/a.txt").2 (by decide)⟩

/-- C2: race upgrade.  A local-scheme, non-filtered file change at `t0`
outside the agent window and past the grace period arms the debounce timer
and dispatches nothing; an agent pulse at `t1`, before the timer's
`humanDebounceMs` delay elapses, upgrades the cycle: the only dispatched
checkpoint is the agent checkpoint for that path, and the timer handle is
cleared so no human checkpoint can ever be issued for this cycle. -/
theorem C2_race_upgrade (cfg : Config) (s : ManagerState) (t0 t1 : Nat) (p w : String)
    (hfilter : filteredPath p = false)
    (hwin : AI_SIGNAL_WINDOW_MS ≤ t0 - s.lastAiSignalTime)
    (hgrace : AI_GRACE_PERIOD_MS ≤ t0 - s.lastAiCheckpointTime)
    (horder : t0 ≤ t1)
    (hbefore : t1 < t0 + cfg.humanDebounceMs)
    (hw : cfg.getWorkspaceFolder p = some w) :
    (handleFileChange cfg s t0 ⟨"file", p⟩).2 = [] ∧
    (signalAiActivity cfg (handleFileChange cfg s t0 ⟨"file", p⟩).1 t1).2
      = [Action.agentCheckpoint w p] ∧
    (signalAiActivity cfg (handleFileChange cfg s t0 ⟨"file", p⟩).1 t1).1.pendingHumanTimeout
      = none := by
  have hwin' : (10000 : Nat) ≤ t0 - s.lastAiSignalTime := hwin
  have hgrace' : (5000 : Nat) ≤ t0 - s.lastAiCheckpointTime := hgrace
  have hnwin : ¬(t0 - s.lastAiSignalTime < AI_SIGNAL_WINDOW_MS) := by
    show ¬(t0 - s.lastAiSignalTime < 10000)
    omega
  have hngrace : ¬(t0 - s.lastAiCheckpointTime < AI_GRACE_PERIOD_MS) := by
    show ¬(t0 - s.lastAiCheckpointTime < 5000)
    omega
  have hnth : ¬(t1 - s.lastAiCheckpointTime < AI_CHECKPOINT_THROTTLE_MS) := by
    show ¬(t1 - s.lastAiCheckpointTime < 500)
    omega
  simp [handleFileChange, requestHumanCheckpoint, signalAiActivity,
        requestAwsQCheckpoint, executeAwsQCheckpoint,
        hfilter, hnwin, hngrace, hnth, hw]

/-- C2: witness at a concrete run from the initial state. -/
theorem C2_race_upgrade_witness :
    (handleFileChange cfgEx initialState 20000 ⟨"file", "/w/a.txt"⟩).2 = [] ∧
    (signalAiActivity cfgEx
        (handleFileChange cfgEx initialState 20000 ⟨"file", "/w/a.txt"⟩).1 20500).2
      = [Action.agentCheckpoint "/w" "/w/a.txt"] ∧
    (signalAiActivity cfgEx
        (handleFileChange cfgEx initialState 20000 ⟨"file", "/w/a.txt"⟩).1 20500).1.pendingHumanTimeout
      = none :=
  C2_race_upgrade cfgEx initialState 20000 20500 "/w/a.txt" "/w"
    (by decide) (by decide) (by decide) (by decide) (by decide) (by decide)

/-- C5: grace-period suppression.  A local-scheme, non-filtered file change
outside the agent window but inside the grace period after an agent
checkpoint only records the path: no timer is armed, nothing is dispatched,
and the rest of the state is untouched — the request is dropped, not
deferred.  Moreover the timer callback re-checks the grace period at fire
time: inside the grace period it dispatches nothing. -/
theorem C5_grace_suppression (cfg : Config) (s : ManagerState) (p : String) (t0 : Nat)
    (hfilter : filteredPath p = false)
    (hwin : AI_SIGNAL_WINDOW_MS ≤ t0 - s.lastAiSignalTime)
    (hgrace : t0 - s.lastAiCheckpointTime < AI_GRACE_PERIOD_MS) :
    handleFileChange cfg s t0 ⟨"file", p⟩ = ({ s with pendingFile := some p }, []) ∧
    (∀ s' tf, tf - s'.lastAiCheckpointTime < AI_GRACE_PERIOD_MS →
      executeHumanCheckpoint s' tf = (s', [])) := by
  have hwin' : (10000 : Nat) ≤ t0 - s.lastAiSignalTime := hwin
  have hnwin : ¬(t0 - s.lastAiSignalTime < AI_SIGNAL_WINDOW_MS) := by
    show ¬(t0 - s.lastAiSignalTime < 10000)
    omega
  constructor
  · simp [handleFileChange, requestHumanCheckpoint, hfilter, hnwin, hgrace]
  · intro s' tf h
    simp [executeHumanCheckpoint, h]

/-- C5: witness inside the grace period (last agent checkpoint at 16000,
file change at 20000). -/
theorem C5_grace_suppression_witness :
    handleFileChange cfgEx sGrace 20000 ⟨"file", "/w/a.txt"⟩
      = ({ sGrace with pendingFile := some "/w/a.txt" }, []) ∧
    executeHumanCheckpoint sGrace 20000 = (sGrace, []) := by
  have h := C5_grace_suppression cfgEx sGrace "/w/a.txt" 20000
    (by decide) (by decide) (by decide)
  exact ⟨h.1, h.2 sGrace 20000 (by decide)⟩

/-- C6: agent-burst throttle.  Two file changes 10ms apart, both inside the
agent-signal window, dispatch at most one agent checkpoint; whenever the
first call passes the throttle, the second is throttle-dropped and
dispatches nothing at all. -/
theorem C6_agent_throttle (cfg : Config) (s : ManagerState) (p1 p2 : String) (t : Nat)
    (hf1 : filteredPath p1 = false) (hf2 : filteredPath p2 = false)
    (hwin1 : t - s.lastAiSignalTime < AI_SIGNAL_WINDOW_MS)
    (hwin2 : t + 10 - s.lastAiSignalTime < AI_SIGNAL_WINDOW_MS) :
    (((handleFileChange cfg s t ⟨"file", p1⟩).2
        ++ (handleFileChange cfg (handleFileChange cfg s t ⟨"file", p1⟩).1
              (t + 10) ⟨"file", p2⟩).2).countP isAgentAction) ≤ 1 ∧
    (AI_CHECKPOINT_THROTTLE_MS ≤ t - s.lastAiCheckpointTime →
      (handleFileChange cfg (handleFileChange cfg s t ⟨"file", p1⟩).1
          (t + 10) ⟨"file", p2⟩).2 = []) := by
  by_cases hth : t - s.lastAiCheckpointTime < AI_CHECKPOINT_THROTTLE_MS
  · have hth' : t - s.lastAiCheckpointTime < 500 := hth
    have h1 : handleFileChange cfg s t ⟨"file", p1⟩ = ({ s with pendingFile := some p1 }, []) := by
      simp [handleFileChange, requestAwsQCheckpoint, hf1, hwin1, hth]
    rw [h1]
    constructor
    · by_cases hth2 : t + 10 - s.lastAiCheckpointTime < AI_CHECKPOINT_THROTTLE_MS
      · simp [handleFileChange, requestAwsQCheckpoint, hf2, hwin2, hth2]
      · simp only [handleFileChange, requestAwsQCheckpoint]
        simp [hf2, hwin2, hth2]
        simpa using countP_agent_executeAwsQCheckpoint cfg p2
    · intro hc
      have hc' : (500 : Nat) ≤ t - s.lastAiCheckpointTime := hc
      omega
  · have h1 : handleFileChange cfg s t ⟨"file", p1⟩
        = ({ s with pendingFile := some p1, pendingHumanTimeout := none, lastAiCheckpointTime := t },
            executeAwsQCheckpoint cfg p1) := by
      simp [handleFileChange, requestAwsQCheckpoint, hf1, hwin1, hth]
    have hth2 : t + 10 - t < AI_CHECKPOINT_THROTTLE_MS := by
      show t + 10 - t < 500
      omega
    have hth2n : (10 : Nat) < AI_CHECKPOINT_THROTTLE_MS := by decide
    rw [h1]
    have h2 : handleFileChange cfg
        ({ s with pendingFile := some p1, pendingHumanTimeout := none, lastAiCheckpointTime := t },
          executeAwsQCheckpoint cfg p1).1 (t + 10) ⟨"file", p2⟩
        = ({ s with pendingFile := some p2, pendingHumanTimeout := none, lastAiCheckpointTime := t },
            []) := by
      simp [handleFileChange, requestAwsQCheckpoint, hf2, hwin2, hth2, hth2n]
    rw [h2]
    constructor
    · simpa using countP_agent_executeAwsQCheckpoint cfg p1
    · intro _
      rfl

/-- C6: witness with an agent pulse at 1000, file changes at 2000 and 2010. -/
theorem C6_agent_throttle_witness :
    (((handleFileChange cfgEx { initialState with lastAiSignalTime := 1000 } 2000
          ⟨"file", "/w/a.txt"⟩).2
        ++ (handleFileChange cfgEx
              (handleFileChange cfgEx { initialState with lastAiSignalTime := 1000 } 2000
                ⟨"file", "/w/a.txt"⟩).1 (2000 + 10) ⟨"file", "/w/b.txt"⟩).2).countP
        isAgentAction) ≤ 1 ∧
    (AI_CHECKPOINT_THROTTLE_MS
        ≤ 2000 - ({ initialState with lastAiSignalTime := 1000 } : ManagerState).lastAiCheckpointTime →
      (handleFileChange cfgEx
          (handleFileChange cfgEx { initialState with lastAiSignalTime := 1000 } 2000
            ⟨"file", "/w/a.txt"⟩).1 (2000 + 10) ⟨"file", "/w/b.txt"⟩).2 = []) :=
  C6_agent_throttle cfgEx { initialState with lastAiSignalTime := 1000 } "/w/a.txt" "/w/b.txt" 2000
    (by decide) (by decide) (by decide) (by decide)

/-- C7: window expiry.  An agent pulse at `t0` with no pending timer only
records the pulse; a local-scheme, non-filtered file change arriving at
`t0 + agentSignalWindowMs + 1` is attributed to the human path (the elapsed
time is not strictly below the window), i.e. it equals the debounced human
checkpoint request for the recorded path and dispatches no agent
checkpoint. -/
theorem C7_window_expiry (cfg : Config) (s : ManagerState) (t0 : Nat) (p : String)
    (hidle : s.pendingHumanTimeout = none)
    (hfilter : filteredPath p = false) :
    (signalAiActivity cfg s t0).2 = [] ∧
    handleFileChange cfg (signalAiActivity cfg s t0).1
        (t0 + AI_SIGNAL_WINDOW_MS + 1) ⟨"file", p⟩
      = requestHumanCheckpoint cfg
          { s with lastAiSignalTime := t0, pendingFile := some p }
          (t0 + AI_SIGNAL_WINDOW_MS + 1) ∧
    ((handleFileChange cfg (signalAiActivity cfg s t0).1
        (t0 + AI_SIGNAL_WINDOW_MS + 1) ⟨"file", p⟩).2.countP isAgentAction) = 0 := by
  have h1 : signalAiActivity cfg s t0 = ({ s with lastAiSignalTime := t0 }, []) := by
    simp [signalAiActivity, hidle]
  have h2 : handleFileChange cfg ({ s with lastAiSignalTime := t0 } : ManagerState)
      (t0 + AI_SIGNAL_WINDOW_MS + 1) ⟨"file", p⟩
      = requestHumanCheckpoint cfg
          { s with lastAiSignalTime := t0, pendingFile := some p }
          (t0 + AI_SIGNAL_WINDOW_MS + 1) := by
    have hnwin : ¬(t0 + AI_SIGNAL_WINDOW_MS + 1
        - ({ s with lastAiSignalTime := t0 } : ManagerState).lastAiSignalTime
        < AI_SIGNAL_WINDOW_MS) := by
      show ¬(t0 + 10000 + 1 - t0 < 10000)
      omega
    exact handleFileChange_human_route cfg { s with lastAiSignalTime := t0 }
      (t0 + AI_SIGNAL_WINDOW_MS + 1) p hfilter hnwin
  refine ⟨by rw [h1], ?_, ?_⟩
  · rw [h1]
    exact h2
  · rw [h1]
    show ((handleFileChange cfg ({ s with lastAiSignalTime := t0 } : ManagerState)
        (t0 + AI_SIGNAL_WINDOW_MS + 1) ⟨"file", p⟩).2.countP isAgentAction) = 0
    rw [h2, requestHumanCheckpoint_acts]
    rfl

/-- C7: witness with the pulse at 50000 and the file change at 60001. -/
theorem C7_window_expiry_witness :
    (signalAiActivity cfgEx initialState 50000).2 = [] ∧
    handleFileChange cfgEx (signalAiActivity cfgEx initialState 50000).1
        (50000 + AI_SIGNAL_WINDOW_MS + 1) ⟨"file", "/w/a.txt"⟩
      = requestHumanCheckpoint cfgEx
          { initialState with lastAiSignalTime := 50000, pendingFile := some "/w/a.txt" }
          (50000 + AI_SIGNAL_WINDOW_MS + 1) ∧
    ((handleFileChange cfgEx (signalAiActivity cfgEx initialState 50000).1
        (50000 + AI_SIGNAL_WINDOW_MS + 1) ⟨"file", "/w/a.txt"⟩).2.countP isAgentAction) = 0 :=
  C7_window_expiry cfgEx initialState 50000 "/w/a.txt" rfl (by decide)

/-- C8: idle-signal frame.  An agent pulse arriving while the timer handle
is null records the pulse time and does nothing else: no checkpoint is
dispatched and `pendingFile`, `lastAiCheckpointTime`, both counters and the
(null) timer handle are all unchanged.  The operation is a total function
of the state — the no-timer cancel path cannot throw. -/
theorem C8_idle_signal_frame (cfg : Config) (s : ManagerState) (now : Nat)
    (hidle : s.pendingHumanTimeout = none) :
    signalAiActivity cfg s now = ({ s with lastAiSignalTime := now }, []) := by
  simp [signalAiActivity, hidle]

/-- C8: witness at the initial state. -/
theorem C8_idle_signal_frame_witness :
    signalAiActivity cfgEx initialState 1234
      = ({ initialState with lastAiSignalTime := 1234 }, []) :=
  C8_idle_signal_frame cfgEx initialState 1234 rfl

/-- C9: agent invocation shape.  `checkpointAwsQ r f ts` always issues the
command `checkpoint agent-v1 --hook-input <json>` whose payload has type
`ai_agent`, repository working directory `r` and an empty transcript; for a
file `r ++ "/" ++ rel` under the repository the edited-filepath list is
exactly the relative path with backslashes turned into forward slashes, and
for a file not under the repository it is empty. -/
theorem C9_agent_payload (r rel : String) (ts : Nat) :
    (checkpointAwsQ r (some (r ++ "/" ++ rel)) ts).subcommand
        = ["checkpoint", "agent-v1", "--hook-input"] ∧
    (checkpointAwsQ r (some (r ++ "/" ++ rel)) ts).payload.type = "ai_agent" ∧
    (checkpointAwsQ r (some (r ++ "/" ++ rel)) ts).payload.repo_working_dir = r ∧
    (checkpointAwsQ r (some (r ++ "/" ++ rel)) ts).payload.transcript_messages = [] ∧
    (checkpointAwsQ r (some (r ++ "/" ++ rel)) ts).payload.edited_filepaths
        = [jsReplaceBackslashes rel] ∧
    ∀ f : String, jsStartsWith f r = false →
      (checkpointAwsQ r (some f) ts).payload.edited_filepaths = [] := by
  refine ⟨rfl, rfl, rfl, rfl, ?_, ?_⟩
  · show editedFilepaths r (some (r ++ "/" ++ rel)) = [jsReplaceBackslashes rel]
    rw [string_append_assoc]
    simp only [editedFilepaths]
    rw [jsStartsWith_append, if_pos rfl, jsSubstringFrom_append,
        jsStartsWith_append, if_pos rfl]
    rw [show jsSubstringFrom ("/" ++ rel) 1 = rel from rfl]
  · intro f hf
    show editedFilepaths r (some f) = []
    simp only [editedFilepaths]
    rw [hf]
    rfl

/-- C9: witness for a concrete repository and file. -/
theorem C9_agent_payload_witness :
    (checkpointAwsQ "/w" (some "/w/src/a.txt") 7).payload.edited_filepaths = ["src/a.txt"] ∧
    (checkpointAwsQ "/w" (some "/elsewhere/x") 7).payload.edited_filepaths = [] := by
  have h := C9_agent_payload "/w" "src/a.txt" 7
  have heq : ("/w" ++ "/" ++ "src/a.txt" : String) = "/w/src/a.txt" := by decide
  rw [heq] at h
  refine ⟨?_, h.2.2.2.2.2 "/elsewhere/x" (by decide)⟩
  rw [h.2.2.2.2.1]
  decide

/-- C10: throttle-passing agent request with no containing workspace
folder.  Nothing is dispatched to the executor, yet `lastAiCheckpointTime`
is still set to the current time (and the pending human timer is cleared),
so the grace period and throttle windows engage exactly as if an agent
checkpoint had been issued. -/
theorem C10_no_workspace_folder (cfg : Config) (s : ManagerState) (now : Nat) (p : String)
    (hth : AI_CHECKPOINT_THROTTLE_MS ≤ now - s.lastAiCheckpointTime)
    (hw : cfg.getWorkspaceFolder p = none) :
    requestAwsQCheckpoint cfg s now p
      = ({ s with pendingHumanTimeout := none, lastAiCheckpointTime := now }, []) := by
  have hth' : (500 : Nat) ≤ now - s.lastAiCheckpointTime := hth
  have hn : ¬(now - s.lastAiCheckpointTime < AI_CHECKPOINT_THROTTLE_MS) := by
    show ¬(now - s.lastAiCheckpointTime < 500)
    omega
  simp [requestAwsQCheckpoint, executeAwsQCheckpoint, hn, hw]

/-- C10: witness with a configuration that has no workspace folders. -/
theorem C10_no_workspace_folder_witness :
    requestAwsQCheckpoint cfgNoWs initialState 1000 "/elsewhere/b.txt"
      = ({ initialState with pendingHumanTimeout := none, lastAiCheckpointTime := 1000 }, []) :=
  C10_no_workspace_folder cfgNoWs initialState 1000 "/elsewhere/b.txt" (by decide) rfl

end GitAi
